import Mathlib

/-!
Shallow embedding of the per-node capture pipeline of the
hand-motion-capture-nn repository: the pipeline controller in
src/dataset_gen/pi/src/main.cpp and the camera handler in
src/dataset_creation/pi/src/camera_handler.cpp.

Machine integers are modelled as Nat/Int; datagram bytes as Nat lists;
the POSIX semaphore as an explicit counter value; C++ exceptions as
Except errors; the signal-driven control flow as explicit state-passing
functions, one per handler or loop phase, mirroring the source line by
line.
-/

namespace HMC

/-- Log levels of logger_t as used by the pipeline sources. -/
inductive LogLevel where
  | info
  | debug
  | errorLv
deriving DecidableEq

/-- The four signals handled by the pipeline (main.cpp init_signals):
SIGUSR1 (timer fire), SIGIO (datagram arrival), SIGINT and SIGTERM. -/
inductive Signal where
  | usr1
  | ioSig
  | intSig
  | termSig
deriving DecidableEq

/-- The three handler functions declared in main.cpp:
capture_signal_handler, io_signal_handler, exit_signal_handler. -/
inductive Handler where
  | captureHandler
  | ioHandler
  | exitHandler
deriving DecidableEq

/-- The sa_flags bits main.cpp sets: SA_SIGINFO and SA_RESTART. -/
structure SaFlags where
  sa_siginfo : Bool
  sa_restart : Bool
deriving DecidableEq

/-- One struct sigaction local variable of init_signals. A field holds
none while the corresponding member is still uninitialized (the C
locals are stack variables that are never zero-initialized). -/
structure SigactionRec where
  sa_handler_fn : Option Handler
  sa_flags : Option SaFlags
  sa_mask_emptied : Bool
deriving DecidableEq

/-- init_signals (main.cpp:325-372), modelled assignment by assignment.
The source declares three locals action, io_action, exit_action; the
third block mistakenly assigns exit_signal_handler (and the flags and
mask calls) into io_action again, leaving every member of exit_action
uninitialized. The returned table maps each signal number to the
sigaction struct passed to sigaction(2) for it: action for SIGUSR1,
io_action for SIGIO, exit_action for SIGINT and SIGTERM. -/
def init_signals : Signal → SigactionRec :=
  let action : SigactionRec :=
    { sa_handler_fn := some Handler.captureHandler,
      sa_flags := some { sa_siginfo := true, sa_restart := true },
      sa_mask_emptied := true }
  let io_action0 : SigactionRec :=
    { sa_handler_fn := some Handler.ioHandler,
      sa_flags := some { sa_siginfo := true, sa_restart := true },
      sa_mask_emptied := true }
  let exit_action : SigactionRec :=
    { sa_handler_fn := none, sa_flags := none, sa_mask_emptied := false }
  let io_action : SigactionRec :=
    { io_action0 with
      sa_handler_fn := some Handler.exitHandler,
      sa_flags := some { sa_siginfo := true, sa_restart := true },
      sa_mask_emptied := true }
  fun s =>
    match s with
    | Signal.usr1 => action
    | Signal.ioSig => io_action
    | Signal.intSig => exit_action
    | Signal.termSig => exit_action

/-- exit_signal_handler (main.cpp:196-210): guards on SIGINT/SIGTERM,
then sets running to 0 and posts the loop-control semaphore. The result
is the pair (new running flag, whether sem_post was called). -/
def exit_signal_handler (signo : Signal) (running : Bool) : Bool × Bool :=
  if signo ≠ Signal.intSig ∧ signo ≠ Signal.termSig then (running, false)
  else (false, true)

/-- The errors camera_handler_t::queue_request throws
(camera_handler.cpp:195-235): the overrun check failing, or
libcamera Camera::queueRequest returning a negative value. -/
inductive CamError where
  | bufferNotReady
  | queueRequestFailed
deriving DecidableEq

/-- camera_handler_t::queue_request (camera_handler.cpp:195-235).
N is frame_buffers_, M is requests_.size() = dma_buffers, semValue the
value sem_getvalue reads from the queue counter, idx the current
next_req_idx_; driverOk models whether Camera::queueRequest returns
nonnegative. The overrun gate runs before the driver call: when
semValue > N - 2 the function throws without submitting anything and
next_req_idx_ is untouched. On success it returns the advanced
next_req_idx_ = (idx + 1) % M. -/
def queue_request (N : Int) (M : Nat) (semValue : Int) (idx : Nat)
    (driverOk : Bool) : Except CamError Nat :=
  if semValue > N - 2 then Except.error CamError.bufferNotReady
  else if driverOk then Except.ok ((idx + 1) % M)
  else Except.error CamError.queueRequestFailed

/-- capture_signal_handler (main.cpp:124-143): returns at once unless
signo = SIGUSR1 and running is set; otherwise it calls
cam->queue_request() with no surrounding try/catch, so a thrown
std::runtime_error unwinds out of the handler (modelled as the error
propagating into the handler result). ok none = returned without
calling queue_request; ok (some idx2) = request queued and the INFO
line logged. -/
def capture_signal_handler (signo : Signal) (running : Bool) (N : Int)
    (M : Nat) (semValue : Int) (idx : Nat) (driverOk : Bool) :
    Except CamError (Option Nat) :=
  if signo ≠ Signal.usr1 ∨ running = false then Except.ok none
  else
    match queue_request N M semValue idx driverOk with
    | Except.error e => Except.error e
    | Except.ok idx2 => Except.ok (some idx2)

/-- One nanosecond-per-second constant of main.cpp. -/
def ns_per_s : Int := 1000000000

/-- frame_duration = ns_per_s / config.fps (main.cpp:66), C integer
division (truncation toward zero). -/
def frame_duration (fps : Int) : Int := Int.tdiv ns_per_s fps

/-- The ASCII bytes of the 4-byte STOP control message. -/
def STOP_msg : List Nat := [83, 84, 79, 80]

/-- memcpy(&timestamp, buf, 8) on the little-endian target: the eight
received bytes are the two's-complement little-endian encoding of the
int64_t timestamp. -/
def int64OfLeBytes (bs : List Nat) : Int :=
  let u : Nat := bs.foldr (fun b acc => acc * 256 + b % 256) 0
  if u < 2 ^ 63 then (u : Int) else (u : Int) - 2 ^ 64

/-- Observable effect of one run of io_signal_handler: the timestamp
it leaves behind, whether it posted the loop-control semaphore, and
the level of the log line it emitted (none = returned on the signo
guard before logging). -/
structure IoEffect where
  timestamp : Int
  semPosted : Bool
  logLevel : Option LogLevel
deriving DecidableEq

/-- io_signal_handler (main.cpp:145-194). recvfrom is called with an
8-byte buffer, so a datagram longer than 8 bytes is truncated to its
first 8 bytes and bytes_recvd = 8 (POSIX datagram-socket semantics);
dgram is the datagram payload, timestamp the current static timestamp.
A 4-byte datagram equal to "STOP" zeroes the timestamp without posting;
an 8-byte read stores the received int64 and posts once; everything
else only logs at DEBUG level. -/
def io_signal_handler (signo : Signal) (timestamp : Int)
    (dgram : List Nat) : IoEffect :=
  if signo ≠ Signal.ioSig then
    { timestamp := timestamp, semPosted := false, logLevel := none }
  else
    let buf := dgram.take 8
    let bytes_recvd := buf.length
    if bytes_recvd = 4 ∧ buf.take 4 = STOP_msg then
      { timestamp := 0, semPosted := false, logLevel := some LogLevel.info }
    else if bytes_recvd = 8 then
      { timestamp := int64OfLeBytes buf, semPosted := true,
        logLevel := some LogLevel.info }
    else
      { timestamp := timestamp, semPosted := false,
        logLevel := some LogLevel.debug }

/-- The it_value member of the itimerspec arm_timer fills in
(it_interval is zeroed: the timer is single-shot). -/
structure Itimerspec where
  tv_sec : Int
  tv_nsec : Int
deriving DecidableEq

/-- The absolute nanosecond instant an armed itimerspec denotes. -/
def Itimerspec.absNs (t : Itimerspec) : Int :=
  t.tv_sec * ns_per_s + t.tv_nsec

/-- arm_timer (main.cpp:268-295): returns without arming when the
static timestamp is zero; otherwise sets a single-shot absolute
expiration at the timestamp, split into seconds and nanoseconds with C
division and remainder (truncation toward zero). -/
def arm_timer (timestamp : Int) : Option Itimerspec :=
  if timestamp = 0 then none
  else
    some { tv_sec := Int.tdiv timestamp ns_per_s,
           tv_nsec := Int.tmod timestamp ns_per_s }

/-- The main-loop state the timer logic reads: the static timestamp and
the SPSC queue contents seen by the consumer, oldest first (frames
stand for the pool-slot pointers the completion path enqueued). -/
structure LoopState where
  timestamp : Int
  frames : List Nat
deriving DecidableEq

/-- One iteration of the while (running) loop in main (main.cpp:86-112)
between two sem_wait blocks: if timestamp is nonzero add one frame
duration d, call arm_timer, then (after the semaphore wake) dequeue;
returns (new state, the itimerspec armed this iteration if any, the
frame fed to the encoder if any). -/
def loop_iter (d : Int) (s : LoopState) :
    LoopState × Option Itimerspec × Option Nat :=
  let ts := if s.timestamp = 0 then s.timestamp else s.timestamp + d
  let armed := arm_timer ts
  match s.frames with
  | [] => ({ timestamp := ts, frames := [] }, armed, none)
  | f :: rest => ({ timestamp := ts, frames := rest }, armed, some f)

/-- n consecutive main-loop iterations: final state, the list of
itimerspecs armed (in order), and the list of frames delivered to the
encoder (in order). -/
def loop_run (d : Int) : LoopState → Nat → LoopState × List Itimerspec × List Nat
  | s, 0 => (s, [], [])
  | s, n + 1 =>
    let step := loop_iter d s
    let rest := loop_run d step.1 n
    (rest.1, step.2.1.toList ++ rest.2.1, step.2.2.toList ++ rest.2.2)

/-- State touched by camera_handler_t::request_complete: the N-slot
frame-bytes pool (each slot a byte list), the writer cursor
frame_bytes_offset_, the SPSC queue contents (slot indices standing for
the enqueued slot addresses frame_bytes_buffer_ + frame_bytes * slot),
and the semaphore counter. -/
structure FrameArena where
  pool : List (List Nat)
  pool_cursor : Nat
  queue : List Nat
  semCount : Nat
deriving DecidableEq

/-- The observable actions of one request_complete run, in program
order. -/
inductive CamEvent where
  | copyBytes (n : Nat)
  | enqueueSlot (slot : Nat)
  | semPost
  | reuseRequest
deriving DecidableEq

/-- camera_handler_t::request_complete (camera_handler.cpp:237-267).
cancelled requests return untouched. Otherwise: memcpy frame_bytes from
mmap_buffers_[cookie] into the slot at pool_cursor, advance the cursor
mod N, busy-retry enqueue until it succeeds, sem_post once, then
request->reuse(ReuseBuffers). Q is the SPSC queue capacity; since
nothing dequeues concurrently in this single-completion embedding, the
do/while retry loop terminates exactly when the queue has room, so a
full queue (which the spec sizes the queue to exclude) is modelled as
none (the callback would spin forever). -/
def request_complete (frame_bytes N Q : Nat) (mmap_buffers : List (List Nat))
    (cancelled : Bool) (cookie : Nat) (s : FrameArena) :
    Option (FrameArena × List CamEvent) :=
  if cancelled then some (s, [])
  else if s.queue.length < Q then
    let src := (mmap_buffers.getD cookie []).take frame_bytes
    let slot := s.pool_cursor
    some
      ({ pool := s.pool.set slot src,
         pool_cursor := (s.pool_cursor + 1) % N,
         queue := s.queue ++ [slot],
         semCount := s.semCount + 1 },
       [CamEvent.copyBytes frame_bytes, CamEvent.enqueueSlot slot,
        CamEvent.semPost, CamEvent.reuseRequest])
  else none

/-- Outcome of one write(2) call on the stream socket, as stream_pkt
distinguishes them: wrote n (nonnegative return, n capped by the byte
count requested, as POSIX guarantees), errno = EINTR, or any other
error. -/
inductive WriteRes where
  | wrote (n : Nat)
  | eintr
  | errOther
deriving DecidableEq

/-- Return of stream_pkt: ok total models return 0 after
total_bytes_written reached total; connErr the negative return of
conn_tcp propagated; writeErr the -1 return on a non-EINTR write
error. -/
inductive StreamRes where
  | ok (total : Nat)
  | connErr
  | writeErr
deriving DecidableEq

/-- stream_pkt (main.cpp:374-416). The while loop runs until
total_bytes_written reaches size; each iteration lazily connects the
stream socket when tcpfd < 0, then writes the remaining bytes.
Arguments: fuel bounds the number of loop iterations (none = not yet
terminated within fuel); connected is tcpfd ≥ 0; conns the outcomes of
successive conn_tcp calls; writes the outcomes of successive write
calls; total the running total_bytes_written. A wrote n outcome
advances total by min n (size - total): write(2) never writes more
than the count it was asked for. -/
def stream_pkt : Nat → Nat → Bool → List Bool → List WriteRes → Nat →
    Option StreamRes
  | 0, _, _, _, _, _ => none
  | fuel + 1, size, connected, conns, writes, total =>
    if size ≤ total then some (StreamRes.ok total)
    else if connected then
      match writes with
      | [] => none
      | WriteRes.wrote n :: ws =>
          stream_pkt fuel size true conns ws (total + min n (size - total))
      | WriteRes.eintr :: ws => stream_pkt fuel size true conns ws total
      | WriteRes.errOther :: _ => some StreamRes.writeErr
    else
      match conns with
      | [] => none
      | true :: cs => stream_pkt fuel size true cs writes total
      | false :: _ => some StreamRes.connErr

/-- Bounded helper for the least power of two at or above m; the first
argument is structural fuel (any fuel ≥ m gives the mathematical
value). -/
def ceilPow2Go : Nat → Nat → Nat
  | _, 0 => 1
  | 0, _ => 1
  | fuel + 1, m => if m ≤ 1 then 1 else 2 * ceilPow2Go fuel ((m + 1) / 2)

/-- Modelled from the spec: the capacity policy of lock_free_queue_t,
whose source (include/lock_free_queue.h) is not under src/ - only its
construction site main.cpp:67 and its callers are. Spec section 3:
"SPSC Queue. Capacity Q (power of two, Q ≥ N)" together with section
4.6 step 1: "SPSC queue (capacity ≥ dma_buffers)"; modelled as the
least power of two at or above the constructor argument. -/
def lock_free_queue_capacity (requested : Nat) : Nat :=
  ceilPow2Go requested requested

/-- The two configuration fields the queue-capacity claim involves
(config.txt keys FRAME_BUFFERS and DMA_BUFFERS). -/
structure PipelineConfig where
  frame_buffers : Nat
  dma_buffers : Nat
deriving DecidableEq

/-- The configuration constraints the spec states (section 3):
frame_buffers = N ≥ 3 and 2 ≤ dma_buffers = M ≤ N. -/
def validConfig (c : PipelineConfig) : Prop :=
  3 ≤ c.frame_buffers ∧ 2 ≤ c.dma_buffers ∧ c.dma_buffers ≤ c.frame_buffers

instance (c : PipelineConfig) : Decidable (validConfig c) :=
  inferInstanceAs (Decidable (3 ≤ c.frame_buffers ∧ 2 ≤ c.dma_buffers ∧
    c.dma_buffers ≤ c.frame_buffers))

/-- The capacity of the frame_queue main.cpp:67 constructs:
lock_free_queue_t frame_queue(config.dma_buffers). -/
def frame_queue_capacity (c : PipelineConfig) : Nat :=
  lock_free_queue_capacity c.dma_buffers

/-- ceilPow2Go always yields a power of two. -/
lemma ceilPow2Go_pow (fuel m : Nat) : ∃ k, ceilPow2Go fuel m = 2 ^ k := by
  induction fuel generalizing m with
  | zero => cases m <;> exact ⟨0, rfl⟩
  | succ fuel ih =>
    cases m with
    | zero => exact ⟨0, rfl⟩
    | succ m0 =>
      by_cases h : m0 + 1 ≤ 1
      · exact ⟨0, by simp [ceilPow2Go, h]⟩
      · obtain ⟨k, hk⟩ := ih ((m0 + 2) / 2)
        refine ⟨k + 1, ?_⟩
        simp [ceilPow2Go, h, hk]
        ring

/-- With enough fuel, ceilPow2Go dominates its argument. -/
lemma ceilPow2Go_ge (fuel m : Nat) (h : m ≤ fuel) : m ≤ ceilPow2Go fuel m := by
  induction fuel generalizing m with
  | zero =>
    have : m = 0 := by omega
    simp [this, ceilPow2Go]
  | succ fuel ih =>
    cases m with
    | zero => exact Nat.zero_le _
    | succ m0 =>
      by_cases h1 : m0 + 1 ≤ 1
      · have : m0 = 0 := by omega
        simp [this, ceilPow2Go]
      · have hle : (m0 + 1 + 1) / 2 ≤ fuel := by omega
        have hrec := ih ((m0 + 1 + 1) / 2) hle
        simp only [ceilPow2Go, h1, if_false]
        omega

/-- Claim C2 (code_bug): init_signals was meant to register each of the
four handlers to its own signal with SA_RESTART set, but the source
assigns exit_signal_handler into io_action (reusing the wrong local),
so SIGIO is registered to exit_signal_handler and SIGINT/SIGTERM are
registered through the fully uninitialized exit_action - no handler and
no SA_RESTART flag. exit_signal_handler itself does behave as the claim
says: it sets running = 0 and posts the loop-control semaphore. -/
theorem C2_signal_registration_bug :
    (init_signals Signal.usr1).sa_handler_fn = some Handler.captureHandler ∧
    (init_signals Signal.ioSig).sa_handler_fn = some Handler.exitHandler ∧
    (init_signals Signal.ioSig).sa_handler_fn ≠ some Handler.ioHandler ∧
    (init_signals Signal.intSig).sa_handler_fn = none ∧
    (init_signals Signal.termSig).sa_handler_fn = none ∧
    (init_signals Signal.termSig).sa_flags = none ∧
    exit_signal_handler Signal.intSig true = (false, true) ∧
    exit_signal_handler Signal.termSig true = (false, true) := by
  decide

/-- Claim C9 (code_bug): the capture handler does return without
calling queue_request when running is clear or the signal is not
SIGUSR1, but a queue_request failure is not contained: with
frame_buffers = 4 and semaphore value 3 the overrun error thrown inside
queue_request propagates out of capture_signal_handler (the call has no
try/catch), contradicting the claim that the handler always returns
normally. -/
theorem C9_handler_exception_escape :
    capture_signal_handler Signal.usr1 false 4 3 0 0 true =
      Except.ok none ∧
    capture_signal_handler Signal.ioSig true 4 3 0 0 true =
      Except.ok none ∧
    capture_signal_handler Signal.usr1 true 4 3 3 0 true =
      Except.error CamError.bufferNotReady :=
  ⟨rfl, rfl, rfl⟩

/-- Claim C6, counterexample: the valid configuration frame_buffers = 4,
dma_buffers = 2 yields a startup SPSC queue of capacity 2 < 4, so the
claimed bound Q ≥ frame_buffers fails - main.cpp:67 passes
config.dma_buffers, not config.frame_buffers, to the queue
constructor. -/
theorem C6_capacity_cex :
    validConfig { frame_buffers := 4, dma_buffers := 2 } ∧
    frame_queue_capacity { frame_buffers := 4, dma_buffers := 2 } = 2 ∧
    frame_queue_capacity { frame_buffers := 4, dma_buffers := 2 } < 4 := by
  decide

/-- Claim C6 (corrected): the SPSC queue created at startup has a
power-of-two capacity Q with Q ≥ M, where M = dma_buffers is the value
main.cpp:67 passes to the constructor (not Q ≥ frame_buffers as
claimed). -/
theorem C6_queue_capacity (c : PipelineConfig) (_h : validConfig c) :
    (∃ k, frame_queue_capacity c = 2 ^ k) ∧
      c.dma_buffers ≤ frame_queue_capacity c :=
  ⟨ceilPow2Go_pow c.dma_buffers c.dma_buffers,
   ceilPow2Go_ge c.dma_buffers c.dma_buffers le_rfl⟩

/-- Concrete instance of C6_queue_capacity at frame_buffers = 4,
dma_buffers = 3: the capacity is the power of two 4 ≥ 3. -/
theorem C6_queue_capacity_witness :
    validConfig { frame_buffers := 4, dma_buffers := 3 } ∧
    ((∃ k, frame_queue_capacity { frame_buffers := 4, dma_buffers := 3 } =
        2 ^ k) ∧
      3 ≤ frame_queue_capacity { frame_buffers := 4, dma_buffers := 3 }) :=
  ⟨by decide, C6_queue_capacity { frame_buffers := 4, dma_buffers := 3 }
    (by decide)⟩

/-- Claim C7, counterexample: a 9-byte datagram is truncated by
recvfrom to its first 8 bytes, so the handler treats it as a start
timestamp: from timestamp 5 it stores 1 (the little-endian value of
the first 8 bytes) and posts the semaphore - a state change for a size
outside {4, 8}. -/
theorem C7_size_filter_cex :
    ([1, 0, 0, 0, 0, 0, 0, 0, 7] : List Nat).length = 9 ∧
    (io_signal_handler Signal.ioSig 5 [1, 0, 0, 0, 0, 0, 0, 0, 7]).timestamp
      = 1 ∧
    (io_signal_handler Signal.ioSig 5 [1, 0, 0, 0, 0, 0, 0, 0, 7]).semPosted
      = true := by
  decide

/-- Claim C7 (corrected): every datagram of size at most 7 and not
equal to 4 produces no state change - the timestamp is unchanged, the
semaphore is not posted, and the event is only logged at debug level.
(Datagrams longer than 8 bytes are truncated to 8 by recvfrom and
handled as start datagrams, which is why the bound is 8, not an
arbitrary size outside {4, 8}.) -/
theorem C7_small_datagram_no_effect (ts : Int) (dgram : List Nat)
    (hlt : dgram.length < 8) (h4 : dgram.length ≠ 4) :
    io_signal_handler Signal.ioSig ts dgram =
      { timestamp := ts, semPosted := false,
        logLevel := some LogLevel.debug } := by
  have htake : dgram.take 8 = dgram := List.take_of_length_le (by omega)
  have h8 : dgram.length ≠ 8 := by omega
  simp [io_signal_handler, htake, h4, h8]

/-- Concrete instance of C7_small_datagram_no_effect on the 5-byte
payload HELLO from scenario S5. -/
theorem C7_small_datagram_witness :
    io_signal_handler Signal.ioSig 5 [72, 69, 76, 76, 79] =
      { timestamp := 5, semPosted := false,
        logLevel := some LogLevel.debug } :=
  C7_small_datagram_no_effect 5 [72, 69, 76, 76, 79] (by decide) (by decide)

/-- Claim C10 (confirmed): a 4-byte datagram whose content differs from
ASCII STOP falls through both message checks: the timestamp is
unchanged, the semaphore is not posted, and the handler only logs the
unexpected message size at debug level. -/
theorem C10_four_byte_non_stop (ts : Int) (dgram : List Nat)
    (h4 : dgram.length = 4) (hstop : dgram ≠ STOP_msg) :
    io_signal_handler Signal.ioSig ts dgram =
      { timestamp := ts, semPosted := false,
        logLevel := some LogLevel.debug } := by
  have htake : dgram.take 8 = dgram := List.take_of_length_le (by omega)
  have htake4 : dgram.take 4 = dgram := List.take_of_length_le (by omega)
  simp [io_signal_handler, htake, htake4, h4, hstop]

/-- Concrete instance of C10_four_byte_non_stop on the 4-byte payload
HELL. -/
theorem C10_four_byte_non_stop_witness :
    io_signal_handler Signal.ioSig 7 [72, 69, 76, 76] =
      { timestamp := 7, semPosted := false,
        logLevel := some LogLevel.debug } :=
  C10_four_byte_non_stop 7 [72, 69, 76, 76] (by decide) (by decide)

/-- An armed itimerspec denotes exactly the timestamp it was armed
with: the tv_sec/tv_nsec split by C division and remainder recombines
to the original nanosecond value. -/
lemma arm_timer_toList_absNs (ts : Int) (h : ts ≠ 0) :
    ((arm_timer ts).toList).map Itimerspec.absNs = [ts] := by
  simp [arm_timer, h, Itimerspec.absNs]
  rw [mul_comm]
  exact Int.tdiv_add_tmod ts ns_per_s

/-- One idle-queue loop iteration with a nonzero timestamp: the
timestamp advances by one frame duration and the timer is armed at the
advanced value. -/
lemma loop_iter_idle (d T : Int) (hT : T ≠ 0) :
    loop_iter d { timestamp := T, frames := [] } =
      ({ timestamp := T + d, frames := [] }, arm_timer (T + d), none) := by
  simp [loop_iter, hT]

/-- Claim C1, counterexample: after an 8-byte start datagram stores
base timestamp T = 1700000000000000000 while the loop is blocked in
sem_wait, the next loop iteration first advances the timestamp by one
frame duration (1e9/30 = 33333333 ns) and only then arms, so the first
timer expiration is armed for T + 33333333, not for T itself as the
claim states. -/
theorem C1_first_arm_cex :
    ((loop_iter (frame_duration 30)
        { timestamp := 1700000000000000000, frames := [] }).2.1).map
        Itimerspec.absNs = some 1700000000033333333 ∧
    (1700000000033333333 : Int) ≠ 1700000000000000000 := by
  decide

/-- Claim C1 (corrected): for base timestamp T delivered while the
pipeline is idle and frame duration d = 1e9/F, the successive timer
expirations are armed at absolute times T + d, T + 2d, T + 3d, ...:
the k-th arm is at T + (k+1)d, because the main loop adds one frame
duration to the stored timestamp before every arm, including the first
one. -/
theorem C1_timer_cadence (T d : Int) (hT : 0 < T) (hd : 0 < d) (n : Nat) :
    ((loop_run d { timestamp := T, frames := [] } n).2.1).map
        Itimerspec.absNs =
      (List.range n).map (fun k : Nat => T + ((k : Int) + 1) * d) := by
  induction n generalizing T with
  | zero => simp [loop_run]
  | succ n ih =>
    have hT1 : 0 < T + d := by linarith
    have hne : T + d ≠ 0 := ne_of_gt hT1
    have hfun : ((fun k : Nat => T + ((k : Int) + 1) * d) ∘ Nat.succ) =
        fun k : Nat => (T + d) + ((k : Int) + 1) * d := by
      funext k
      simp only [Function.comp_apply]
      push_cast
      ring
    rw [List.range_succ_eq_map, List.map_cons, List.map_map, hfun]
    simp only [loop_run, loop_iter_idle d T (ne_of_gt hT)]
    rw [List.map_append, arm_timer_toList_absNs (T + d) hne,
      ih (T + d) hT1]
    simp

/-- Concrete instance of C1_timer_cadence: from base timestamp 5 with
frame duration 3, two iterations arm at 8 and 11. -/
theorem C1_timer_cadence_witness :
    ((loop_run 3 { timestamp := 5, frames := [] } 2).2.1).map
      Itimerspec.absNs = [8, 11] := by
  have h := C1_timer_cadence 5 3 (by decide) (by decide) 2
  rw [h]
  decide

/-- Claim C3 (confirmed): queue_request submits iff the semaphore value
is at most N - 2; above that it fails with the overrun error without
touching the driver or next_req_idx, and on success next_req_idx
advances to (idx + 1) mod M. In the paused-consumer scenario the k-th
call sees semaphore value k - 1 (each completed capture posts once), so
every call up to the (N-1)-th succeeds and the N-th, seeing value
N - 1 > N - 2, fails with the overrun error. -/
theorem C3_queue_request_gate (N : Int) (M idx : Nat) (semV : Int) :
    (semV ≤ N - 2 →
      queue_request N M semV idx true = Except.ok ((idx + 1) % M)) ∧
    (N - 2 < semV → ∀ driverOk, queue_request N M semV idx driverOk =
      Except.error CamError.bufferNotReady) ∧
    (∀ k : Nat, 1 ≤ k → (k : Int) ≤ N - 1 →
      queue_request N M ((k : Int) - 1) idx true =
        Except.ok ((idx + 1) % M)) ∧
    queue_request N M (N - 1) idx true =
      Except.error CamError.bufferNotReady := by
  refine ⟨?_, ?_, ?_, ?_⟩
  · intro h
    have hc : ¬ (semV > N - 2) := by omega
    simp [queue_request, hc]
  · intro h driverOk
    have hc : semV > N - 2 := h
    simp [queue_request, hc]
  · intro k hk hkN
    have hc : ¬ ((k : Int) - 1 > N - 2) := by omega
    simp [queue_request, hc]
  · have hc : N - 1 > N - 2 := by omega
    simp [queue_request, hc]

/-- Concrete instance of C3_queue_request_gate at N = 4, M = 3: the
call seeing semaphore value 2 = N - 2 succeeds and advances the index,
the call seeing 3 = N - 1 fails with the overrun error. -/
theorem C3_queue_request_witness :
    queue_request 4 3 2 0 true = Except.ok 1 ∧
    queue_request 4 3 3 0 true = Except.error CamError.bufferNotReady := by
  constructor
  · have h := (C3_queue_request_gate 4 3 0 2).1 (by decide)
    simpa using h
  · have h := (C3_queue_request_gate 4 3 0 0).2.2.2
    simpa using h

/-- Claim C4 (confirmed): a cancelled completion changes nothing; a
non-cancelled completion with cookie c copies exactly frame_bytes from
the mapped buffer indexed by c into the slot at pool_cursor, advances
the cursor to (pool_cursor + 1) mod N, enqueues that slot (the retry
loop succeeding because the queue has room), posts the semaphore
exactly once, and re-arms the request - in that program order, as the
event trace records: copy, enqueue, one semPost, then reuse. -/
theorem C4_request_complete_effects (fb N Q cookie : Nat)
    (mm : List (List Nat)) (s : FrameArena)
    (hroom : s.queue.length < Q) :
    request_complete fb N Q mm true cookie s = some (s, []) ∧
    request_complete fb N Q mm false cookie s =
      some ({ pool := s.pool.set s.pool_cursor
                ((mm.getD cookie []).take fb),
              pool_cursor := (s.pool_cursor + 1) % N,
              queue := s.queue ++ [s.pool_cursor],
              semCount := s.semCount + 1 },
            [CamEvent.copyBytes fb, CamEvent.enqueueSlot s.pool_cursor,
             CamEvent.semPost, CamEvent.reuseRequest]) := by
  constructor
  · simp [request_complete]
  · simp [request_complete, hroom]

/-- Concrete instance of C4_request_complete_effects: completing
cookie 1 with a 2-byte frame size copies the first two bytes of buffer
1 into slot 0, advances the cursor to 1, enqueues slot 0, and bumps the
semaphore to 1. -/
theorem C4_request_complete_witness :
    request_complete 2 3 4 [[1, 2, 3], [4, 5, 6]] false 1
        { pool := [[0, 0], [0, 0], [0, 0]], pool_cursor := 0,
          queue := [], semCount := 0 } =
      some ({ pool := [[4, 5], [0, 0], [0, 0]], pool_cursor := 1,
              queue := [0], semCount := 1 },
            [CamEvent.copyBytes 2, CamEvent.enqueueSlot 0,
             CamEvent.semPost, CamEvent.reuseRequest]) := by
  have h := (C4_request_complete_effects 2 3 4 1 [[1, 2, 3], [4, 5, 6]]
    { pool := [[0, 0], [0, 0], [0, 0]], pool_cursor := 0, queue := [],
      semCount := 0 } (by decide)).2
  rw [h]
  decide

/-- With the timestamp stopped at zero, every loop iteration skips
arming and still drains one queued frame: n iterations deliver the
first n frames in order and never arm the timer. -/
lemma loop_run_stopped (d : Int) (frames : List Nat) (n : Nat) :
    loop_run d { timestamp := 0, frames := frames } n =
      ({ timestamp := 0, frames := frames.drop n }, [], frames.take n) := by
  induction n generalizing frames with
  | zero => simp [loop_run]
  | succ n ih =>
    cases frames with
    | nil => simp [loop_run, loop_iter, arm_timer, ih]
    | cons f rest => simp [loop_run, loop_iter, arm_timer, ih]

/-- Claim C5 (confirmed): the STOP datagram makes io_signal_handler
zero the base timestamp without posting the semaphore; arm_timer on the
resulting timestamp arms nothing, and from the stopped state every
further loop iteration arms nothing while frames already enqueued still
drain through the main loop in order. -/
theorem C5_stop_idempotence (ts d : Int) (frames : List Nat) (n : Nat) :
    io_signal_handler Signal.ioSig ts STOP_msg =
      { timestamp := 0, semPosted := false,
        logLevel := some LogLevel.info } ∧
    arm_timer (io_signal_handler Signal.ioSig ts STOP_msg).timestamp =
      none ∧
    (loop_run d { timestamp := 0, frames := frames } n).2.1 = [] ∧
    (loop_run d { timestamp := 0, frames := frames } n).2.2 =
      frames.take n := by
  refine ⟨rfl, rfl, ?_, ?_⟩
  · simp [loop_run_stopped]
  · simp [loop_run_stopped]

/-- When stream_pkt returns success, total_bytes_written has reached
exactly size: the loop guard stops at size and write(2) never advances
past the remaining byte count. -/
lemma stream_pkt_ok_is_size (fuel : Nat) :
    ∀ (size : Nat) (c : Bool) (cs : List Bool) (ws : List WriteRes)
      (total t : Nat), total ≤ size →
      stream_pkt fuel size c cs ws total = some (StreamRes.ok t) →
      t = size := by
  induction fuel with
  | zero =>
    intro size c cs ws total t htot h
    simp [stream_pkt] at h
  | succ fuel ih =>
    intro size c cs ws total t htot h
    by_cases hsz : size ≤ total
    · simp only [stream_pkt, if_pos hsz] at h
      simp at h
      omega
    · cases c with
      | true =>
        cases ws with
        | nil =>
          simp only [stream_pkt, if_neg hsz] at h
          simp at h
        | cons w ws =>
          cases w with
          | wrote nw =>
            simp only [stream_pkt, if_neg hsz, if_pos rfl] at h
            refine ih size true cs ws _ t ?_ h
            have := Nat.min_le_right nw (size - total)
            omega
          | eintr =>
            simp only [stream_pkt, if_neg hsz, if_pos rfl] at h
            exact ih size true cs ws total t htot h
          | errOther =>
            simp only [stream_pkt, if_neg hsz] at h
            simp at h
      | false =>
        cases cs with
        | nil =>
          simp only [stream_pkt, if_neg hsz] at h
          simp at h
        | cons cb cs =>
          cases cb with
          | true =>
            simp [stream_pkt, hsz] at h
            exact ih size true cs ws total t htot h
          | false =>
            simp only [stream_pkt, if_neg hsz] at h
            simp at h

/-- Claim C8 (confirmed): stream_pkt loops until total_bytes_written
equals size and returns success only then; while bytes remain, an
EINTR write outcome is retried (the loop continues with the same
total), any other write error aborts with the write-error return, a
failed lazy connect aborts with the connect-error return, and a
successful lazy connect proceeds to writing. -/
theorem C8_stream_pkt_full_write (fuel size total : Nat) (c : Bool)
    (cs : List Bool) (ws : List WriteRes) (t : Nat)
    (htot : total ≤ size) :
    (stream_pkt fuel size c cs ws total = some (StreamRes.ok t) →
      t = size) ∧
    (stream_pkt (fuel + 1) size true cs (WriteRes.eintr :: ws) total =
      if size ≤ total then some (StreamRes.ok total)
      else stream_pkt fuel size true cs ws total) ∧
    (stream_pkt (fuel + 1) size true cs (WriteRes.errOther :: ws) total =
      if size ≤ total then some (StreamRes.ok total)
      else some StreamRes.writeErr) ∧
    (stream_pkt (fuel + 1) size false (false :: cs) ws total =
      if size ≤ total then some (StreamRes.ok total)
      else some StreamRes.connErr) ∧
    (stream_pkt (fuel + 1) size false (true :: cs) ws total =
      if size ≤ total then some (StreamRes.ok total)
      else stream_pkt fuel size true cs ws total) := by
  refine ⟨stream_pkt_ok_is_size fuel size c cs ws total t htot,
    ?_, ?_, ?_, ?_⟩
  · by_cases hsz : size ≤ total <;> simp [stream_pkt, hsz]
  · by_cases hsz : size ≤ total <;> simp [stream_pkt, hsz]
  · by_cases hsz : size ≤ total <;> simp [stream_pkt, hsz]
  · by_cases hsz : size ≤ total <;> simp [stream_pkt, hsz]

/-- Concrete instance of C8_stream_pkt_full_write: a 5-byte packet
written as 3 bytes, an interrupted call, then 2 bytes returns success
with exactly 5 bytes written. -/
theorem C8_stream_pkt_witness :
    stream_pkt 10 5 true []
        [WriteRes.wrote 3, WriteRes.eintr, WriteRes.wrote 2] 0 =
      some (StreamRes.ok 5) ∧ (5 : Nat) = 5 := by
  constructor
  · decide
  · exact (C8_stream_pkt_full_write 10 5 0 true []
      [WriteRes.wrote 3, WriteRes.eintr, WriteRes.wrote 2] 5
      (by decide)).1 (by decide)

end HMC
